import Mathlib

/-!
Verification of the pattern-detection module of `pro-pattern-detector-v8`
(`pattern_detectors.py`) against its natural-language specification.

Shallow embedding conventions:
* A pandas bar series becomes `List Bar`, chronologically ascending,
  addressed with the same negative offsets the source uses (`iloc`).
* Python floats become `ℚ` (the heuristic scoring logic is exact rational
  arithmetic on the inputs; float formatting of facts is abstracted to the
  underlying number).
* The fact map (a Python dict whose keys are only ever added within one
  call) becomes an insertion-ordered association list.
* `config.py` is not part of the sources; following the specification
  ("immutable externally supplied thresholds ... treated as data, never
  hard-coded") its named values are an abstract `Config` record that every
  definition takes as a parameter.
-/

set_option linter.unusedVariables false
set_option maxRecDepth 10000

/-- One OHLCV bar, fields named as the source's columns. -/
structure Bar where
  Open : ℚ
  High : ℚ
  Low : ℚ
  Close : ℚ
  Volume : ℚ
  deriving DecidableEq, Repr

instance : Inhabited Bar := ⟨⟨0, 0, 0, 0, 0⟩⟩

/-- Values stored in a fact map: booleans, strings (f-string formatting is
abstracted to the underlying quantity where a number is formatted), rational
numbers, integers and indicator series. -/
inductive Val where
  | b : Bool → Val
  | s : String → Val
  | q : ℚ → Val
  | i : Int → Val
  | series : List ℚ → Val
  deriving DecidableEq, Repr

/-- The `pattern_info` / `volume_info` dict: insertion-ordered entries,
keys only ever added within one call (matching the spec's "purely additive"
invariant). -/
abbrev PatternInfo := List (String × Val)

/-- `m[k] = v` on a Python dict whose keys are fresh: append the entry. -/
def put (m : PatternInfo) (k : String) (v : Val) : PatternInfo := m ++ [(k, v)]

/-- `k in m`. -/
def hasKey : PatternInfo → String → Bool
  | [], _ => false
  | (k1, _) :: rest, k => (k1 == k) || hasKey rest k

@[simp] theorem hasKey_nil (k : String) : hasKey [] k = false := rfl

@[simp] theorem hasKey_cons (k1 : String) (v : Val) (m : PatternInfo) (k : String) :
    hasKey ((k1, v) :: m) k = ((k1 == k) || hasKey m k) := rfl

@[simp] theorem hasKey_append (m1 m2 : PatternInfo) (k : String) :
    hasKey (m1 ++ m2) k = (hasKey m1 k || hasKey m2 k) := by
  induction m1 with
  | nil => simp
  | cons p rest ih => cases p; simp [ih, Bool.or_assoc]

@[simp] theorem hasKey_put (m : PatternInfo) (k : String) (v : Val) (k2 : String) :
    hasKey (put m k v) k2 = (hasKey m k2 || (k == k2)) := by
  simp [put]

@[simp] theorem hasKey_ite (c : Prop) [Decidable c] (a b : PatternInfo) (k : String) :
    hasKey (if c then a else b) k = if c then hasKey a k else hasKey b k := by
  split <;> rfl

/-! ### Series helpers (pandas operations used by the source) -/

/-- `series.iloc[i]` for a possibly negative offset; `none` models the
`IndexError` the source catches. -/
def iloc (data : List Bar) (i : Int) : Option Bar :=
  let j : Int := if i < 0 then (data.length : Int) + i else i
  if 0 ≤ j then data.get? j.toNat else none

/-- `series.iloc[i]` at an offset the source has already guarded in range. -/
def ilocD (data : List Bar) (i : Int) : Bar := (iloc data i).getD default

/-- `iloc[i]` on a numeric series (defaulting out-of-range to 0; all source
uses are length-guarded). -/
def ilocQ (xs : List ℚ) (i : Int) : ℚ :=
  let j : Int := if i < 0 then (xs.length : Int) + i else i
  (xs.get? j.toNat).getD 0

/-- `series.iloc[-1]`. -/
def lastQ (xs : List ℚ) : ℚ := xs.getLastD 0

/-- `series.tail(n)`: the trailing `n` elements (all of them when shorter). -/
def tailN (data : List Bar) (n : Nat) : List Bar := data.drop (data.length - n)

/-- `series.iloc[:-n]`: all but the trailing `n` elements. -/
def dropLastN (data : List Bar) (n : Nat) : List Bar := data.take (data.length - n)

/-- `series.iloc[-a:-b]` for `a > b`: offsets `[-a, -b)` from the end, with
Python's clamping of out-of-range bounds. -/
def sliceNeg (data : List Bar) (a b : Nat) : List Bar :=
  (data.take (data.length - b)).drop (data.length - a)

/-- `series.mean()` (empty series abstracted to 0: every source comparison
against it is with a NaN that compares false, and the embedding's branches
agree on all realizable inputs). -/
def meanQ (xs : List ℚ) : ℚ := xs.sum / xs.length

/-- `series.max()` of a non-empty series. -/
def maxQ : List ℚ → ℚ
  | [] => 0
  | x :: xs => xs.foldl max x

/-- `series.min()` of a non-empty series. -/
def minQ : List ℚ → ℚ
  | [] => 0
  | x :: xs => xs.foldl min x

/-- `series.rolling(3, center=True).max().dropna()`: the 3-window centered
rolling maximum, NaN ends dropped. -/
def rolling3max : List ℚ → List ℚ
  | a :: b :: c :: rest => max a (max b c) :: rolling3max (b :: c :: rest)
  | _ => []

/-- `series.rolling(3, center=True).min().dropna()`. -/
def rolling3min : List ℚ → List ℚ
  | a :: b :: c :: rest => min a (min b c) :: rolling3min (b :: c :: rest)
  | _ => []

/-- `data['Close'].iloc[-1]`. -/
def currentClose (data : List Bar) : ℚ := (data.map Bar.Close).getLastD 0

/-- `next((i for i in range(1, 11) if p i), 11)`. -/
def firstHit (p : Nat → Bool) : Nat := ((List.range' 1 10).find? p).getD 11

/-- Running numerator/denominator of pandas `ewm(span).mean()` with the
default `adjust=True` weighting. -/
def ewmAux (a : ℚ) : List ℚ → ℚ → ℚ → List ℚ
  | [], _, _ => []
  | x :: rest, num, den =>
    let n := x + (1 - a) * num
    let d := 1 + (1 - a) * den
    n / d :: ewmAux a rest n d

/-- `series.ewm(span=s).mean()`: span-based smoothing `a = 2/(s+1)`, seeded
from the first sample. -/
def ewm (span : ℚ) (xs : List ℚ) : List ℚ := ewmAux (2 / (span + 1)) xs 0 0

/-! ### Configuration -/

/-- Modelled from the spec: the repository's `config.py`
(`PATTERN_THRESHOLDS`, `VOLUME_THRESHOLDS`, `VOLUME_SCORE_POINTS`,
`PATTERN_VOLUME_BONUS`, `MAX_CONFIDENCE_WITHOUT_VOLUME`,
`PATTERN_AGE_LIMITS`) is not under `src/`; the spec describes it as an
immutable externally supplied record of named thresholds, so it is modelled
as an abstract parameter record. -/
structure Config where
  /-- `PATTERN_THRESHOLDS["Bull Flag"]['min_flagpole_gain']` -/
  min_flagpole_gain : ℚ
  /-- `PATTERN_THRESHOLDS["Bull Flag"]['pullback_range'][0]` -/
  pullback_low : ℚ
  /-- `PATTERN_THRESHOLDS["Bull Flag"]['pullback_range'][1]` -/
  pullback_high : ℚ
  /-- `PATTERN_THRESHOLDS["Bull Flag"]['flag_tolerance']` -/
  flag_tolerance : ℚ
  /-- `PATTERN_THRESHOLDS["Flat Top Breakout"]['min_initial_gain']` -/
  min_initial_gain : ℚ
  /-- `PATTERN_THRESHOLDS["Flat Top Breakout"]['min_pullback']` -/
  min_pullback : ℚ
  /-- `PATTERN_THRESHOLDS["Flat Top Breakout"]['resistance_tolerance']` -/
  resistance_tolerance : ℚ
  /-- `PATTERN_THRESHOLDS["Cup Handle"]['min_cup_depth']` -/
  min_cup_depth : ℚ
  /-- `PATTERN_THRESHOLDS["Cup Handle"]['max_cup_depth']` -/
  max_cup_depth : ℚ
  /-- `PATTERN_THRESHOLDS["Cup Handle"]['max_handle_depth']` -/
  max_handle_depth : ℚ
  /-- `PATTERN_THRESHOLDS["Inside Bar"]` consolidation tiers (daily). -/
  tight_consolidation : ℚ
  good_consolidation : ℚ
  moderate_consolidation : ℚ
  /-- `PATTERN_THRESHOLDS["Inside Bar"]` consolidation tiers (weekly). -/
  tight_consolidation_weekly : ℚ
  good_consolidation_weekly : ℚ
  moderate_consolidation_weekly : ℚ
  /-- `VOLUME_THRESHOLDS` -/
  vol_exceptional : ℚ
  vol_strong : ℚ
  vol_good : ℚ
  /-- `VOLUME_SCORE_POINTS` -/
  pts_exceptional : ℚ
  pts_strong : ℚ
  pts_good : ℚ
  /-- `PATTERN_VOLUME_BONUS` -/
  bonus_bull_flag : ℚ
  bonus_cup_handle : ℚ
  bonus_flat_top : ℚ
  bonus_inside_bar : ℚ
  /-- `MAX_CONFIDENCE_WITHOUT_VOLUME` -/
  max_confidence_without_volume : ℚ
  /-- `PATTERN_AGE_LIMITS['daily']['Flat Top Breakout']` -/
  age_limit_flat_top : ℚ
  /-- `PATTERN_AGE_LIMITS['daily']['Bull Flag']` -/
  age_limit_bull_flag : ℚ
  deriving DecidableEq

/-- The spec calls the volume values point totals / bonuses / a confidence
ceiling: they are non-negative magnitudes. -/
def Config.Nonneg (cfg : Config) : Prop :=
  0 ≤ cfg.pts_exceptional ∧ 0 ≤ cfg.pts_strong ∧ 0 ≤ cfg.pts_good ∧
  0 ≤ cfg.bonus_bull_flag ∧ 0 ≤ cfg.bonus_cup_handle ∧
  0 ≤ cfg.bonus_flat_top ∧ 0 ≤ cfg.bonus_inside_bar ∧
  0 ≤ cfg.max_confidence_without_volume

instance (cfg : Config) : Decidable cfg.Nonneg := by
  unfold Config.Nonneg; infer_instance

/-! ### `analyze_volume_pattern`

The source builds `volume_score` and `volume_info` side by side in one pass;
the embedding computes the two components by the same sequence of
conditions.  The input fact map is only read through
`'flagpole_gain' in pattern_info`, which is passed as a Bool. -/

/-- `volume_multiplier = current_volume / avg_volume_20`. -/
def volumeMultiplier (data : List Bar) : ℚ :=
  lastQ (data.map Bar.Volume) / meanQ ((tailN data 20).map Bar.Volume)

/-- The tiered base score of `analyze_volume_pattern` (lines 32-46). -/
def volume_tier_score (cfg : Config) (data : List Bar) : ℚ :=
  if volumeMultiplier data ≥ cfg.vol_exceptional then cfg.pts_exceptional
  else if volumeMultiplier data ≥ cfg.vol_strong then cfg.pts_strong
  else if volumeMultiplier data ≥ cfg.vol_good then cfg.pts_good
  else 0

/-- The pattern-specific bonus of `analyze_volume_pattern` (lines 48-116). -/
def volume_pattern_score (cfg : Config) (data : List Bar) (pattern_type : String)
    (has_flagpole_gain : Bool) : ℚ :=
  if pattern_type = "Bull Flag" then
    if has_flagpole_gain then
      let flagpole_start := min 25 (data.length - 10)
      let flagpole_vol := meanQ ((sliceNeg data flagpole_start 15).map Bar.Volume)
      let flag_vol := meanQ ((tailN data 15).map Bar.Volume)
      if flagpole_vol > flag_vol * (12/10) then cfg.bonus_bull_flag
      -- `PATTERN_VOLUME_BONUS["Bull Flag"] // 2` (floor division)
      else if flagpole_vol > flag_vol * (11/10) then ((⌊cfg.bonus_bull_flag / 2⌋ : ℤ) : ℚ)
      else 0
    else 0
  else if pattern_type = "Cup Handle" then
    let handle_days := min 30 (data.length / 3)
    if handle_days > 5 then
      let cup_data := dropLastN data handle_days
      let handle_data := tailN data handle_days
      if cup_data.length > 10 then
        let cup_volume := meanQ (cup_data.map Bar.Volume)
        let handle_volume := meanQ (handle_data.map Bar.Volume)
        if handle_volume < cup_volume * (80/100) then cfg.bonus_cup_handle
        else if handle_volume < cup_volume * (90/100) then cfg.bonus_cup_handle * (3/4)
        else 0
      else 0
    else 0
  else if pattern_type = "Flat Top Breakout" then
    let avg_resistance_volume := meanQ ((tailN data 20).map Bar.Volume)
    if lastQ (data.map Bar.Volume) > avg_resistance_volume * (14/10) then cfg.bonus_flat_top
    else if lastQ (data.map Bar.Volume) > avg_resistance_volume * (12/10) then
      cfg.bonus_flat_top * (3/4)
    else 0
  else if pattern_type = "Inside Bar" then
    -- Prefer lower volume during consolidation, reward breakout expansion
    (if volumeMultiplier data < (8/10) then cfg.bonus_inside_bar
     else if volumeMultiplier data < 1 then cfg.bonus_inside_bar * (67/100)
     else 0) +
    (if volumeMultiplier data ≥ (15/10) then cfg.bonus_inside_bar else 0)
  else 0

/-- The volume-trend bonus of `analyze_volume_pattern` (lines 118-125). -/
def volume_trend_score (data : List Bar) : ℚ :=
  let volume_trend := meanQ ((tailN data 5).map Bar.Volume) / meanQ ((tailN data 20).map Bar.Volume)
  if volume_trend > (11/10) then 5
  else if volume_trend < (9/10) then 5
  else 0

/-- The `volume_score` component of `analyze_volume_pattern`: the tiered
base score, the pattern-specific bonus and the trend bonus, accumulated in
the source's order (each stage only ever adds, so the total is their sum). -/
def analyze_volume_score (cfg : Config) (data : List Bar) (pattern_type : String)
    (has_flagpole_gain : Bool) : ℚ :=
  if data.length < 20 then 0 else
  volume_tier_score cfg data + volume_pattern_score cfg data pattern_type has_flagpole_gain +
    volume_trend_score data

/-- The `volume_info` component of `analyze_volume_pattern`: the dict is
built by appending fresh keys in the source's order, so it is the
concatenation of the per-stage entry segments. -/
def analyze_volume_info (cfg : Config) (data : List Bar) (pattern_type : String)
    (has_flagpole_gain : Bool) : PatternInfo :=
  if data.length < 20 then [] else
  let avg_volume_20 := meanQ ((tailN data 20).map Bar.Volume)
  let current_volume := lastQ (data.map Bar.Volume)
  let recent_volume_5 := meanQ ((tailN data 5).map Bar.Volume)
  let volume_multiplier := current_volume / avg_volume_20
  let recent_multiplier := recent_volume_5 / avg_volume_20
  [("avg_volume_20", Val.q avg_volume_20), ("current_volume", Val.q current_volume),
   ("volume_multiplier", Val.q volume_multiplier), ("recent_multiplier", Val.q recent_multiplier)] ++
  -- Score based on volume thresholds
  (if volume_multiplier ≥ cfg.vol_exceptional then
    [("exceptional_volume", Val.b true), ("volume_status", Val.s "Exceptional Volume")]
  else if volume_multiplier ≥ cfg.vol_strong then
    [("strong_volume", Val.b true), ("volume_status", Val.s "Strong Volume")]
  else if volume_multiplier ≥ cfg.vol_good then
    [("good_volume", Val.b true), ("volume_status", Val.s "Good Volume")]
  else
    [("weak_volume", Val.b true), ("volume_status", Val.s "Weak Volume")]) ++
  -- Pattern-specific volume analysis
  (if pattern_type = "Bull Flag" then
    if has_flagpole_gain then
      let flagpole_start := min 25 (data.length - 10)
      let flagpole_vol := meanQ ((sliceNeg data flagpole_start 15).map Bar.Volume)
      let flag_vol := meanQ ((tailN data 15).map Bar.Volume)
      if flagpole_vol > flag_vol * (12/10) then
        [("flagpole_volume_pattern", Val.b true), ("flagpole_vol_ratio", Val.q (flagpole_vol / flag_vol))]
      else if flagpole_vol > flag_vol * (11/10) then
        [("moderate_flagpole_volume", Val.b true), ("flagpole_vol_ratio", Val.q (flagpole_vol / flag_vol))]
      else []
    else []
  else if pattern_type = "Cup Handle" then
    let handle_days := min 30 (data.length / 3)
    if handle_days > 5 then
      let cup_data := dropLastN data handle_days
      let handle_data := tailN data handle_days
      if cup_data.length > 10 then
        let cup_volume := meanQ (cup_data.map Bar.Volume)
        let handle_volume := meanQ (handle_data.map Bar.Volume)
        if handle_volume < cup_volume * (80/100) then
          [("significant_volume_dryup", Val.b true), ("handle_vol_ratio", Val.q (handle_volume / cup_volume))]
        else if handle_volume < cup_volume * (90/100) then
          [("moderate_volume_dryup", Val.b true), ("handle_vol_ratio", Val.q (handle_volume / cup_volume))]
        else []
      else []
    else []
  else if pattern_type = "Flat Top Breakout" then
    let avg_resistance_volume := meanQ ((tailN data 20).map Bar.Volume)
    if current_volume > avg_resistance_volume * (14/10) then
      [("breakout_volume_surge", Val.b true), ("resistance_vol_ratio", Val.q (current_volume / avg_resistance_volume))]
    else if current_volume > avg_resistance_volume * (12/10) then
      [("moderate_breakout_volume", Val.b true), ("resistance_vol_ratio", Val.q (current_volume / avg_resistance_volume))]
    else []
  else if pattern_type = "Inside Bar" then
    (if volume_multiplier < (8/10) then [("consolidation_volume", Val.b true)]
     else if volume_multiplier < 1 then [("quiet_consolidation", Val.b true)]
     else []) ++
    (if volume_multiplier ≥ (15/10) then [("breakout_volume_expansion", Val.b true)] else [])
  else []) ++
  -- Volume trend analysis
  (let volume_trend := meanQ ((tailN data 5).map Bar.Volume) / meanQ ((tailN data 20).map Bar.Volume)
   if volume_trend > (11/10) then [("increasing_volume_trend", Val.b true)]
   else if volume_trend < (9/10) then [("decreasing_volume_trend", Val.b true)]
   else [])

/-- `analyze_volume_pattern(data, pattern_type, pattern_info)`. -/
def analyze_volume_pattern (cfg : Config) (data : List Bar) (pattern_type : String)
    (pattern_info : PatternInfo) : ℚ × PatternInfo :=
  (analyze_volume_score cfg data pattern_type (hasKey pattern_info "flagpole_gain"),
   analyze_volume_info cfg data pattern_type (hasKey pattern_info "flagpole_gain"))

/-! ### `detect_inside_bar` -/

/-- One offset of the inside-bar scan qualifies: strict containment of the
current bar in the previous bar plus the green-mother / red-inside colour
rule. -/
abbrev ibQual (previous_bar current_bar : Bar) : Prop :=
  (current_bar.High ≤ previous_bar.High ∧ current_bar.Low ≥ previous_bar.Low ∧
   current_bar.High < previous_bar.High ∧ current_bar.Low > previous_bar.Low) ∧
  previous_bar.Close > previous_bar.Open ∧ current_bar.Close < current_bar.Open

/-- The backward scan of `detect_inside_bar` (lines 152-184): state is
`(mother_bar_idx, inside_bars_count, inside_bar_indices)`; every branch but
"first inside bar found" breaks out of the loop, as in the source. -/
def ibScan (data : List Bar) : List Int → Option Int × Nat × List Int → Option Int × Nat × List Int
  | [], st => st
  | i :: rest, st =>
    match iloc data i, iloc data (i - 1) with
    | some current_bar, some previous_bar =>
      if ibQual previous_bar current_bar then
        if st.2.1 = 0 then
          -- First inside bar found, previous bar is mother bar
          ibScan data rest (some (i - 1), 1, [i])
        else if st.2.1 = 1 ∧ i = st.2.2.headD 0 - 1 then
          -- Second consecutive inside bar; max 2 inside bars, break
          (st.1, 2, st.2.2 ++ [i])
        else st  -- Not consecutive, stop looking
      else st  -- No valid inside bar (size or color), stop looking
    | _, _ => st  -- IndexError, break

/-- `range(-1, -7, -1)` weekly, `range(-1, -5, -1)` daily. -/
def ibOffsets (timeframe : String) : List Int :=
  if timeframe = "1wk" then [-1, -2, -3, -4, -5, -6] else [-1, -2, -3, -4]

/-- Aging threshold: pattern stale after 8 weeks / 6 days. -/
def ibAgingThreshold (timeframe : String) : Int := if timeframe = "1wk" then -8 else -6

/-- Aging penalty factor 0.7 weekly / 0.8 daily. -/
def ibAgingPenalty (timeframe : String) : ℚ := if timeframe = "1wk" then 7/10 else 8/10

/-- The `pattern_info['timeframe']` entry set before the scan. -/
def ibTfInfo (timeframe : String) : PatternInfo :=
  [("timeframe", Val.s (if timeframe = "1wk" then "Weekly" else "Daily"))]

/-- Confidence accumulated by `detect_inside_bar` from the base score up to
(not including) the volume score (lines 200-276); every stage only adds, so
the total is the sum of the stage bonuses in source order. -/
def ibPreVolumeConf (cfg : Config) (data : List Bar) (macd_line signal_line histogram : List ℚ)
    (timeframe : String) (mother_bar latest_inside_bar : Bar) (inside_bars_count : Nat) : ℚ :=
  -- Base confidence for pattern formation (higher base for weekly)
  (if timeframe = "1wk" then (35 : ℚ) else 30) +
  -- Bonus for proper color combination
  15 +
  -- Prefer single inside bar over double
  (if inside_bars_count = 1 then (15 : ℚ) else 10) +
  -- Inside bar size relative to mother bar
  (let mother_bar_range := mother_bar.High - mother_bar.Low
   let inside_bar_range := latest_inside_bar.High - latest_inside_bar.Low
   if mother_bar_range > 0 then
     let size_ratio := inside_bar_range / mother_bar_range
     let tight := if timeframe = "1wk" then cfg.tight_consolidation_weekly else cfg.tight_consolidation
     let good := if timeframe = "1wk" then cfg.good_consolidation_weekly else cfg.good_consolidation
     let moderate := if timeframe = "1wk" then cfg.moderate_consolidation_weekly else cfg.moderate_consolidation
     if size_ratio < tight then (20 : ℚ)
     else if size_ratio < good then 15
     else if size_ratio < moderate then 10
     else 5
   else 0) +
  -- Check position within mother bar (prefer middle positioning)
  (let mother_bar_midpoint := (mother_bar.High + mother_bar.Low) / 2
   let inside_bar_midpoint := (latest_inside_bar.High + latest_inside_bar.Low) / 2
   let distance_from_middle :=
     abs (inside_bar_midpoint - mother_bar_midpoint) / (mother_bar.High - mother_bar.Low)
   if distance_from_middle < (25/100) then (10 : ℚ)
   else if distance_from_middle < (35/100) then 5
   else 0) +
  -- Technical confirmation
  (if lastQ macd_line > lastQ signal_line then (15 : ℚ) else 0) +
  (if ilocQ histogram (-1) > ilocQ histogram (-3) then (10 : ℚ) else 0) +
  -- Current price should be near inside bar range for valid setup
  (if currentClose data ≥ latest_inside_bar.Low * (98/100) then (10 : ℚ) else 0)

/-- Fact map accumulated by `detect_inside_bar` up to (not including) the
volume merge, by the same sequence of conditions as `ibPreVolumeConf`. -/
def ibPreVolumeInfo (cfg : Config) (data : List Bar) (macd_line signal_line histogram : List ℚ)
    (timeframe : String) (mother_bar latest_inside_bar : Bar) (inside_bars_count : Nat) : PatternInfo :=
  ibTfInfo timeframe ++
  [("mother_bar_high", Val.q mother_bar.High), ("mother_bar_low", Val.q mother_bar.Low),
   ("inside_bar_high", Val.q latest_inside_bar.High), ("inside_bar_low", Val.q latest_inside_bar.Low),
   ("inside_bars_count", Val.i inside_bars_count), ("color_validated", Val.b true),
   ("mother_bar_color", Val.s "Green"), ("inside_bar_color", Val.s "Red"),
   ("proper_color_combo", Val.b true)] ++
  (if inside_bars_count = 1 then [("single_inside_bar", Val.b true)]
   else [("double_inside_bar", Val.b true)]) ++
  (let mother_bar_range := mother_bar.High - mother_bar.Low
   let inside_bar_range := latest_inside_bar.High - latest_inside_bar.Low
   if mother_bar_range > 0 then
     let size_ratio := inside_bar_range / mother_bar_range
     let tight := if timeframe = "1wk" then cfg.tight_consolidation_weekly else cfg.tight_consolidation
     let good := if timeframe = "1wk" then cfg.good_consolidation_weekly else cfg.good_consolidation
     let moderate := if timeframe = "1wk" then cfg.moderate_consolidation_weekly else cfg.moderate_consolidation
     ("size_ratio", Val.q size_ratio) ::
       (if size_ratio < tight then [("tight_consolidation", Val.b true)]
        else if size_ratio < good then [("good_consolidation", Val.b true)]
        else if size_ratio < moderate then [("moderate_consolidation", Val.b true)]
        else [])
   else []) ++
  (let mother_bar_midpoint := (mother_bar.High + mother_bar.Low) / 2
   let inside_bar_midpoint := (latest_inside_bar.High + latest_inside_bar.Low) / 2
   let distance_from_middle :=
     abs (inside_bar_midpoint - mother_bar_midpoint) / (mother_bar.High - mother_bar.Low)
   if distance_from_middle < (25/100) then [("centered_inside_bar", Val.b true)]
   else if distance_from_middle < (35/100) then [("well_positioned", Val.b true)]
   else []) ++
  (if lastQ macd_line > lastQ signal_line then [("macd_bullish", Val.b true)] else []) ++
  (if ilocQ histogram (-1) > ilocQ histogram (-3) then [("momentum_improving", Val.b true)] else []) ++
  (if currentClose data ≥ latest_inside_bar.Low * (98/100) then [("price_in_range", Val.b true)] else [])

/-- `detect_inside_bar(data, macd_line, signal_line, histogram,
market_context, timeframe)`. -/
def detect_inside_bar (cfg : Config) (data : List Bar) (macd_line signal_line histogram : List ℚ)
    (market_context : Unit) (timeframe : String) : ℚ × PatternInfo :=
  if data.length < 5 then (0, []) else
  -- Look for inside bar pattern (max 2 inside bars), most recent bar backwards
  let st := ibScan data (ibOffsets timeframe) (none, 0, [])
  let mother_bar_idx := st.1.getD 0
  let inside_bars_count := st.2.1
  let inside_bar_indices := st.2.2
  if inside_bars_count = 0 then (0, ibTfInfo timeframe) else
  -- Get mother bar and inside bar(s) data
  let mother_bar := ilocD data mother_bar_idx
  let latest_inside_bar := ilocD data (inside_bar_indices.headD 0)
  -- Validate color requirements one more time
  if ¬(mother_bar.Close > mother_bar.Open ∧ latest_inside_bar.Close < latest_inside_bar.Open) then
    (0, ibTfInfo timeframe)
  else
    let confidence := ibPreVolumeConf cfg data macd_line signal_line histogram timeframe
      mother_bar latest_inside_bar inside_bars_count
    let pattern_info := ibPreVolumeInfo cfg data macd_line signal_line histogram timeframe
      mother_bar latest_inside_bar inside_bars_count
    -- Volume analysis
    let vres := analyze_volume_pattern cfg data "Inside Bar" pattern_info
    let confidence := confidence + vres.1
    let pattern_info := pattern_info ++ vres.2
    -- Apply volume confirmation cap
    let capped := !(hasKey vres.2 "good_volume" || hasKey vres.2 "strong_volume" ||
      hasKey vres.2 "exceptional_volume")
    let confidence := if capped then min confidence cfg.max_confidence_without_volume else confidence
    let pattern_info :=
      if capped then put pattern_info "confidence_capped" (Val.s "No volume confirmation")
      else pattern_info
    -- Pattern age check - timeframe adjusted
    let aging := mother_bar_idx ≤ ibAgingThreshold timeframe
    let confidence := if aging then confidence * ibAgingPenalty timeframe else confidence
    let pattern_info :=
      if aging then
        put (put pattern_info "pattern_aging" (Val.b true)) "age_periods" (Val.i (|mother_bar_idx|))
      else pattern_info
    (confidence, pattern_info)

/-! ### `detect_flat_top` -/

/-- `ascent_start = min(45, len(data) - 15)`. -/
def ftAscentStart (data : List Bar) : Nat := min 45 (data.length - 15)

/-- `start_price = data['Close'].iloc[-ascent_start]`. -/
def ftStartPrice (data : List Bar) : ℚ := (ilocD data (-(ftAscentStart data : Int))).Close

/-- `peak_price = data['High'].iloc[-ascent_start:-25].max()`. -/
def ftPeakPrice (data : List Bar) : ℚ := maxQ ((sliceNeg data (ftAscentStart data) 25).map Bar.High)

/-- `initial_gain = (peak_price - start_price) / start_price`. -/
def ftInitialGain (data : List Bar) : ℚ := (ftPeakPrice data - ftStartPrice data) / ftStartPrice data

/-- `descent_low = data.iloc[-25:-10]['Low'].min()`. -/
def ftDescentLow (data : List Bar) : ℚ := minQ ((sliceNeg data 25 10).map Bar.Low)

/-- `pullback = (peak_price - descent_low) / peak_price`. -/
def ftPullback (data : List Bar) : ℚ := (ftPeakPrice data - ftDescentLow data) / ftPeakPrice data

/-- Descending-highs check over the smoothed descent window (lines 328-332). -/
def ftDescendingHighs (data : List Bar) : Bool :=
  let descent_highs := rolling3max ((sliceNeg data 25 10).map Bar.High)
  decide (2 ≤ descent_highs.length) &&
    decide (descent_highs.getLastD 0 < descent_highs.headD 0 * (97/100))

/-- Higher-lows check over the smoothed trailing 15 bars (lines 335-339). -/
def ftHigherLows (data : List Bar) : Bool :=
  let current_lows := rolling3min ((tailN data 15).map Bar.Low)
  decide (3 ≤ current_lows.length) &&
    decide (current_lows.getLastD 0 > current_lows.headD 0 * (101/100))

/-- `touches`: trailing-20 highs at or above `peak * resistance_tolerance`. -/
def ftTouches (cfg : Config) (data : List Bar) : Nat :=
  ((tailN data 20).map Bar.High).countP
    (fun h => decide (h ≥ ftPeakPrice data * cfg.resistance_tolerance))

/-- `days_old`: first offset 1..10 whose High is at or above
`peak * resistance_tolerance`, else the sentinel 11. -/
def ftDaysOld (cfg : Config) (data : List Bar) : Nat :=
  firstHit (fun i =>
    decide (ilocQ (data.map Bar.High) (-(i : Int)) ≥ ftPeakPrice data * cfg.resistance_tolerance))

/-- The `initial_ascension` fact recorded after the ascent check. -/
def ftBaseInfo (data : List Bar) : PatternInfo :=
  [("initial_ascension", Val.q (ftInitialGain data * 100))]

/-- Confidence accrued by `detect_flat_top` before the staleness check
(ascent score plus the descending-highs/higher-lows/resistance bonuses). -/
def ftConfBeforeStale (cfg : Config) (data : List Bar) : ℚ :=
  25 + (if ftDescendingHighs data then (20 : ℚ) else 0) +
  (if ftHigherLows data then (25 : ℚ) else 0) +
  (if 2 ≤ ftTouches cfg data then (15 : ℚ) else 0)

/-- Fact map accrued by `detect_flat_top` before the staleness check. -/
def ftInfoBeforeStale (cfg : Config) (data : List Bar) : PatternInfo :=
  ftBaseInfo data ++
  (if ftDescendingHighs data then [("descending_highs", Val.b true)] else []) ++
  (if ftHigherLows data then [("higher_lows", Val.b true)] else []) ++
  (if 2 ≤ ftTouches cfg data then
    [("resistance_level", Val.q (ftPeakPrice data)), ("resistance_touches", Val.i (ftTouches cfg data))]
  else [])

/-- `detect_flat_top(data, macd_line, signal_line, histogram, market_context)`. -/
def detect_flat_top (cfg : Config) (data : List Bar) (macd_line signal_line histogram : List ℚ)
    (market_context : Unit) : ℚ × PatternInfo :=
  if data.length < 50 then (0, []) else
  if ftInitialGain data < cfg.min_initial_gain then (0, []) else
  if ftPullback data < cfg.min_pullback then (25, ftBaseInfo data) else
  let confidence := ftConfBeforeStale cfg data
  let pattern_info := ftInfoBeforeStale cfg data
  -- Age and invalidation checks
  if (ftDaysOld cfg data : ℚ) > cfg.age_limit_flat_top then
    (confidence * (1/2),
     pattern_info ++ [("pattern_stale", Val.b true), ("days_old", Val.i (ftDaysOld cfg data))])
  else if currentClose data < ftDescentLow data * (95/100) then
    (0, [("pattern_broken", Val.b true), ("break_reason", Val.s "Below support")])
  else
    -- Technical confirmation
    let confidence := if lastQ macd_line > lastQ signal_line then confidence + 10 else confidence
    let pattern_info :=
      if lastQ macd_line > lastQ signal_line then put pattern_info "macd_bullish" (Val.b true)
      else pattern_info
    -- Volume analysis
    let vres := analyze_volume_pattern cfg data "Flat Top Breakout" pattern_info
    let confidence := confidence + vres.1
    let pattern_info := pattern_info ++ vres.2
    -- Apply volume confirmation cap
    let capped := !(hasKey vres.2 "good_volume" || hasKey vres.2 "strong_volume" ||
      hasKey vres.2 "exceptional_volume")
    let confidence := if capped then min confidence cfg.max_confidence_without_volume else confidence
    let pattern_info :=
      if capped then put pattern_info "confidence_capped" (Val.s "No volume confirmation")
      else pattern_info
    (confidence, pattern_info)

/-! ### `detect_bull_flag` -/

/-- `flagpole_start = min(25, len(data) - 10)`. -/
def bfFlagpoleStart (data : List Bar) : Nat := min 25 (data.length - 10)

/-- `start_price = data['Close'].iloc[-flagpole_start]`. -/
def bfStartPrice (data : List Bar) : ℚ := (ilocD data (-(bfFlagpoleStart data : Int))).Close

/-- `peak_price = data['High'].iloc[-flagpole_start:-15].max()`. -/
def bfPeakPrice (data : List Bar) : ℚ := maxQ ((sliceNeg data (bfFlagpoleStart data) 15).map Bar.High)

/-- `flagpole_gain = (peak_price - start_price) / start_price`. -/
def bfFlagpoleGain (data : List Bar) : ℚ := (bfPeakPrice data - bfStartPrice data) / bfStartPrice data

/-- `flag_start = data['Close'].iloc[-15]`. -/
def bfFlagStart (data : List Bar) : ℚ := (ilocD data (-15)).Close

/-- `pullback = (current_price - flag_start) / flag_start` over the flag. -/
def bfPullback (data : List Bar) : ℚ := (currentClose data - bfFlagStart data) / bfFlagStart data

/-- `flag_low = data.tail(15)['Low'].min()`. -/
def bfFlagLow (data : List Bar) : ℚ := minQ ((tailN data 15).map Bar.Low)

/-- `flag_high = data.tail(15)['High'].max()`. -/
def bfFlagHigh (data : List Bar) : ℚ := maxQ ((tailN data 15).map Bar.High)

/-- `days_old`: first offset 1..10 whose High equals the flag-window max,
else the sentinel 11. -/
def bfDaysOld (data : List Bar) : Nat :=
  firstHit (fun i => decide (ilocQ (data.map Bar.High) (-(i : Int)) = bfFlagHigh data))

/-- Confidence accrued by `detect_bull_flag` before the invalidation checks
(flagpole score plus the healthy-pullback bonus). -/
def bfConfAfterPullback (cfg : Config) (data : List Bar) : ℚ :=
  let confidence : ℚ := 25
  if cfg.pullback_low ≤ bfPullback data ∧ bfPullback data ≤ cfg.pullback_high then confidence + 20
  else confidence

/-- Fact map accrued by `detect_bull_flag` before the invalidation checks. -/
def bfInfoAfterPullback (cfg : Config) (data : List Bar) : PatternInfo :=
  [("flagpole_gain", Val.q (bfFlagpoleGain data * 100))] ++
  (if cfg.pullback_low ≤ bfPullback data ∧ bfPullback data ≤ cfg.pullback_high then
    [("flag_pullback", Val.q (bfPullback data * 100)), ("healthy_pullback", Val.b true)]
  else [])

/-- `detect_bull_flag(data, macd_line, signal_line, histogram, market_context)`. -/
def detect_bull_flag (cfg : Config) (data : List Bar) (macd_line signal_line histogram : List ℚ)
    (market_context : Unit) : ℚ × PatternInfo :=
  if data.length < 30 then (0, []) else
  if bfFlagpoleGain data < cfg.min_flagpole_gain then (0, []) else
  let confidence := bfConfAfterPullback cfg data
  let pattern_info := bfInfoAfterPullback cfg data
  -- Invalidation checks
  if currentClose data < bfFlagLow data * cfg.flag_tolerance then
    (0, [("pattern_broken", Val.b true), ("break_reason", Val.s "Below flag support")])
  else if currentClose data < bfStartPrice data then
    (0, [("pattern_broken", Val.b true), ("break_reason", Val.s "Below flagpole start")])
  -- Age check
  else if (bfDaysOld data : ℚ) > cfg.age_limit_bull_flag then
    (confidence * (1/2),
     pattern_info ++ [("pattern_stale", Val.b true), ("days_old", Val.i (bfDaysOld data))])
  else
    let pattern_info := put pattern_info "days_since_high" (Val.i (bfDaysOld data))
    -- Technical confirmation
    let confidence := if lastQ macd_line > lastQ signal_line then confidence + 15 else confidence
    let pattern_info :=
      if lastQ macd_line > lastQ signal_line then put pattern_info "macd_bullish" (Val.b true)
      else pattern_info
    let confidence := if ilocQ histogram (-1) > ilocQ histogram (-3) then confidence + 10 else confidence
    let pattern_info :=
      if ilocQ histogram (-1) > ilocQ histogram (-3) then
        put pattern_info "momentum_recovering" (Val.b true)
      else pattern_info
    -- Volume analysis
    let vres := analyze_volume_pattern cfg data "Bull Flag" pattern_info
    let confidence := confidence + vres.1
    let pattern_info := pattern_info ++ vres.2
    -- Near breakout bonus
    let confidence := if currentClose data ≥ bfFlagHigh data * (95/100) then confidence + 10 else confidence
    let pattern_info :=
      if currentClose data ≥ bfFlagHigh data * (95/100) then put pattern_info "near_breakout" (Val.b true)
      else pattern_info
    -- Apply volume confirmation cap
    let capped := !(hasKey vres.2 "good_volume" || hasKey vres.2 "strong_volume" ||
      hasKey vres.2 "exceptional_volume")
    let confidence := if capped then min confidence cfg.max_confidence_without_volume else confidence
    let pattern_info :=
      if capped then put pattern_info "confidence_capped" (Val.s "No volume confirmation")
      else pattern_info
    (confidence, pattern_info)

/-! ### `detect_cup_handle` -/

/-- `max_lookback = min(100, len(data) - 3)`. -/
def cupMaxLookback (n : Nat) : Nat := min 100 (n - 3)

/-- `handle_days = min(30, max_lookback // 3)`. -/
def cupHandleDays (n : Nat) : Nat := min 30 (cupMaxLookback n / 3)

/-- `cup_data`: window split off before the trailing handle. -/
def cupDataOf (data : List Bar) : List Bar :=
  if cupHandleDays data.length > 0 then
    sliceNeg data (cupMaxLookback data.length) (cupHandleDays data.length)
  else tailN data (cupMaxLookback data.length)

/-- `handle_data`: the trailing handle window. -/
def handleDataOf (data : List Bar) : List Bar :=
  if cupHandleDays data.length > 0 then tailN data (cupHandleDays data.length) else tailN data 5

/-- `cup_start = cup_data['Close'].iloc[0]`. -/
def cupStart (data : List Bar) : ℚ := ((cupDataOf data).map Bar.Close).headD 0

/-- `cup_bottom = cup_data['Low'].min()`. -/
def cupBottom (data : List Bar) : ℚ := minQ ((cupDataOf data).map Bar.Low)

/-- `cup_right = cup_data['Close'].iloc[-1]`. -/
def cupRight (data : List Bar) : ℚ := ((cupDataOf data).map Bar.Close).getLastD 0

/-- `cup_depth = (max(cup_start, cup_right) - cup_bottom) / max(cup_start, cup_right)`. -/
def cupDepth (data : List Bar) : ℚ :=
  (max (cupStart data) (cupRight data) - cupBottom data) / max (cupStart data) (cupRight data)

/-- `handle_low = handle_data['Low'].min()`. -/
def handleLow (data : List Bar) : ℚ := minQ ((handleDataOf data).map Bar.Low)

/-- `handle_depth = (cup_right - handle_low) / cup_right`. -/
def handleDepth (data : List Bar) : ℚ := (cupRight data - handleLow data) / cupRight data

/-- Confidence accrued by `detect_cup_handle` before the volume score
(cup base, handle tiers and length adjustment, position checks, momentum);
the additive stages are folded into sums, the multiplicative penalties kept
in the source's order. -/
def cupConfBeforeVolume (cfg : Config) (data : List Bar) (macd_line signal_line : List ℚ) : ℚ :=
  -- Cup base plus handle analysis
  let confidence : ℚ :=
    if cupHandleDays data.length > 0 then
      let withDepth : ℚ := 25 +
        (if handleDepth data > cfg.max_handle_depth then (10 : ℚ)
         else if handleDepth data ≤ (8/100) then 20
         else if handleDepth data ≤ (15/100) then 15
         else 10)
      -- Handle length analysis
      if cupHandleDays data.length > 25 then withDepth * (8/10)
      else withDepth +
        (if cupHandleDays data.length ≤ 10 then (10 : ℚ)
         else if cupHandleDays data.length ≤ 20 then 5
         else 0)
    else 25 + 10
  -- Position analysis
  let breakout_level := max (cupStart data) (cupRight data)
  let confidence :=
    if currentClose data < breakout_level * (70/100) then confidence * (7/10) else confidence + 5
  let confidence :=
    if cupHandleDays data.length > 0 ∧ currentClose data < handleLow data * (90/100) then
      confidence * (8/10)
    else confidence
  -- Technical confirmation
  confidence + (if lastQ macd_line > lastQ signal_line then (10 : ℚ) else 0)

/-- Fact map accrued by `detect_cup_handle` before the volume merge. -/
def cupInfoBeforeVolume (cfg : Config) (data : List Bar) (macd_line signal_line : List ℚ) : PatternInfo :=
  [("cup_depth", Val.q (cupDepth data * 100))] ++
  (if cupHandleDays data.length > 0 then
    (if handleDepth data > cfg.max_handle_depth then [("deep_handle", Val.q (handleDepth data * 100))]
     else if handleDepth data ≤ (8/100) then [("perfect_handle", Val.q (handleDepth data * 100))]
     else if handleDepth data ≤ (15/100) then [("good_handle", Val.q (handleDepth data * 100))]
     else [("acceptable_handle", Val.q (handleDepth data * 100))]) ++
    (if cupHandleDays data.length > 25 then [("long_handle", Val.i (cupHandleDays data.length))]
     else if cupHandleDays data.length ≤ 10 then [("short_handle", Val.i (cupHandleDays data.length))]
     else if cupHandleDays data.length ≤ 20 then [("medium_handle", Val.i (cupHandleDays data.length))]
     else [])
  else [("forming_handle", Val.s "Handle forming")]) ++
  (if currentClose data < max (cupStart data) (cupRight data) * (70/100) then
    [("far_from_rim", Val.b true)]
  else []) ++
  (if cupHandleDays data.length > 0 ∧ currentClose data < handleLow data * (90/100) then
    [("below_handle", Val.b true)]
  else []) ++
  (if lastQ macd_line > lastQ signal_line then [("macd_bullish", Val.b true)] else [])

/-- `detect_cup_handle` up to and including the volume merge: `none` when an
early guard returned `(0, {})`, otherwise the running
`(confidence, pattern_info, volume_info)` at line 544 of the source. -/
def cupHandleScored (cfg : Config) (data : List Bar) (macd_line signal_line histogram : List ℚ)
    (market_context : Unit) : Option (ℚ × PatternInfo × PatternInfo) :=
  if data.length < 30 then none else
  if (cupDataOf data).length < 15 then none else
  if cupDepth data < cfg.min_cup_depth ∨ cupDepth data > cfg.max_cup_depth then none else
  if cupRight data < cupStart data * (75/100) then none else
  let confidence := cupConfBeforeVolume cfg data macd_line signal_line
  let pattern_info := cupInfoBeforeVolume cfg data macd_line signal_line
  -- Volume analysis
  let vres := analyze_volume_pattern cfg data "Cup Handle" pattern_info
  some (confidence + vres.1, pattern_info ++ vres.2, vres.2)

/-- The running confidence at line 544, when the guards pass. -/
def cupScoredConf (cfg : Config) (data : List Bar) (macd_line signal_line histogram : List ℚ)
    (market_context : Unit) : Option ℚ :=
  (cupHandleScored cfg data macd_line signal_line histogram market_context).map (fun t => t.1)

/-- `detect_cup_handle(data, macd_line, signal_line, histogram, market_context)`. -/
def detect_cup_handle (cfg : Config) (data : List Bar) (macd_line signal_line histogram : List ℚ)
    (market_context : Unit) : ℚ × PatternInfo :=
  match cupHandleScored cfg data macd_line signal_line histogram market_context with
  | none => (0, [])
  | some (confidence, pattern_info, volume_info) =>
    if confidence < 35 then (confidence, pattern_info) else
    -- Apply volume confirmation cap
    let capped := !(hasKey volume_info "good_volume" || hasKey volume_info "strong_volume" ||
      hasKey volume_info "exceptional_volume")
    let confidence := if capped then min confidence cfg.max_confidence_without_volume else confidence
    let pattern_info :=
      if capped then put pattern_info "confidence_capped" (Val.s "No volume confirmation")
      else pattern_info
    (confidence, pattern_info)

/-! ### `detect_pattern` (the dispatcher) -/

/-- `ema_fast = data['Close'].ewm(span=12).mean()`. -/
def ema_fast (data : List Bar) : List ℚ := ewm 12 (data.map Bar.Close)

/-- `ema_slow = data['Close'].ewm(span=26).mean()`. -/
def ema_slow (data : List Bar) : List ℚ := ewm 26 (data.map Bar.Close)

/-- `macd_line = ema_fast - ema_slow`. -/
def macd_line_of (data : List Bar) : List ℚ := List.zipWith (fun a b => a - b) (ema_fast data) (ema_slow data)

/-- `signal_line = macd_line.ewm(span=9).mean()`. -/
def signal_line_of (data : List Bar) : List ℚ := ewm 9 (macd_line_of data)

/-- `histogram = macd_line - signal_line`. -/
def histogram_of (data : List Bar) : List ℚ :=
  List.zipWith (fun a b => a - b) (macd_line_of data) (signal_line_of data)

/-- `detect_pattern(data, pattern_type, market_context, timeframe)`. -/
def detect_pattern (cfg : Config) (data : List Bar) (pattern_type : String)
    (market_context : Unit) (timeframe : String) : Bool × ℚ × PatternInfo :=
  if data.length < 10 then (false, 0, []) else
  -- Calculate MACD components (shared by whichever detector is invoked)
  let macd_line := macd_line_of data
  let signal_line := signal_line_of data
  let histogram := histogram_of data
  -- Route to appropriate pattern detector, rescale, clamp
  let confidence : ℚ :=
    if pattern_type = "Flat Top Breakout" then
      min (detect_flat_top cfg data macd_line signal_line histogram market_context).1 100
    else if pattern_type = "Bull Flag" then
      min ((detect_bull_flag cfg data macd_line signal_line histogram market_context).1 * (105/100)) 100
    else if pattern_type = "Cup Handle" then
      min ((detect_cup_handle cfg data macd_line signal_line histogram market_context).1 * (11/10)) 100
    else if pattern_type = "Inside Bar" then
      min (detect_inside_bar cfg data macd_line signal_line histogram market_context timeframe).1 100
    else 0
  let pattern_info : PatternInfo :=
    if pattern_type = "Flat Top Breakout" then
      (detect_flat_top cfg data macd_line signal_line histogram market_context).2
    else if pattern_type = "Bull Flag" then
      (detect_bull_flag cfg data macd_line signal_line histogram market_context).2
    else if pattern_type = "Cup Handle" then
      (detect_cup_handle cfg data macd_line signal_line histogram market_context).2
    else if pattern_type = "Inside Bar" then
      (detect_inside_bar cfg data macd_line signal_line histogram market_context timeframe).2
    else []
  -- Add MACD data to pattern info for charting
  let pattern_info := put pattern_info "macd_line" (Val.series macd_line)
  let pattern_info := put pattern_info "signal_line" (Val.series signal_line)
  let pattern_info := put pattern_info "histogram" (Val.series histogram)
  (decide (confidence ≥ 55), confidence, pattern_info)

/-! ### Concrete configuration and series used as witnesses -/

/-- A concrete configuration with spec-plausible threshold values (the
theorems below quantify over every configuration; this one instantiates
them). -/
def cfgW : Config :=
  { min_flagpole_gain := 8/100, pullback_low := -15/100, pullback_high := 5/100,
    flag_tolerance := 98/100, min_initial_gain := 8/100, min_pullback := 5/100,
    resistance_tolerance := 98/100, min_cup_depth := 12/100, max_cup_depth := 50/100,
    max_handle_depth := 25/100,
    tight_consolidation := 30/100, good_consolidation := 50/100, moderate_consolidation := 70/100,
    tight_consolidation_weekly := 35/100, good_consolidation_weekly := 55/100,
    moderate_consolidation_weekly := 75/100,
    vol_exceptional := 2, vol_strong := 3/2, vol_good := 12/10,
    pts_exceptional := 20, pts_strong := 15, pts_good := 10,
    bonus_bull_flag := 10, bonus_cup_handle := 10, bonus_flat_top := 10, bonus_inside_bar := 10,
    max_confidence_without_volume := 70, age_limit_flat_top := 5, age_limit_bull_flag := 5 }

/-- A doji bar at price `p` with volume 100. -/
def flatBar (p : ℚ) : Bar := ⟨p, p, p, p, 100⟩

/-- 50 bars: ascent to a 120 peak (gain 20%), descent low 100 (pullback
1/6), then 10 bars far below resistance (stale, `days_old` = 11) whose
close 50 is also below `descent_low * 0.95` (the break condition). -/
def dataC3 : List Bar :=
  List.replicate 15 (flatBar 100) ++ List.replicate 10 ⟨100, 120, 100, 100, 100⟩ ++
  List.replicate 15 ⟨100, 100, 100, 100, 100⟩ ++ List.replicate 10 ⟨50, 50, 50, 50, 100⟩

/-- 30 bars: flagpole gain 20%; final bar closes at 80, below both the
flagpole start (100) and `flag_low * flag_tolerance` (98). -/
def dataC4 : List Bar :=
  List.replicate 10 (flatBar 100) ++ List.replicate 5 ⟨100, 120, 100, 100, 100⟩ ++
  List.replicate 14 (flatBar 100) ++ [⟨100, 100, 100, 80, 100⟩]

/-- 30 bars: flagpole gain 20%; final bar closes at 99, below the flagpole
start but not below `flag_low * flag_tolerance`. -/
def dataC4b : List Bar :=
  List.replicate 10 (flatBar 100) ++ List.replicate 5 ⟨100, 120, 100, 100, 100⟩ ++
  List.replicate 14 (flatBar 100) ++ [⟨100, 100, 99, 99, 100⟩]

/-- 30 bars forming a cup (depth 20%) and a deep handle whose current close
65 sits below 70% of the rim: running confidence 31.5 < 35 at the early
exit, with flat volume. -/
def dataC5 : List Bar :=
  List.replicate 21 ⟨100, 100, 80, 100, 100⟩ ++ List.replicate 8 ⟨100, 100, 70, 100, 100⟩ ++
  [⟨100, 100, 65, 65, 100⟩]

/-- 50 bars: ascent to a 120 peak (gain 20%) with descent lows 118, so the
pullback 1/60 misses the configured minimum. -/
def dataC6 : List Bar :=
  List.replicate 15 (flatBar 100) ++ List.replicate 10 ⟨100, 120, 100, 100, 100⟩ ++
  List.replicate 25 ⟨118, 119, 118, 118, 100⟩

/-- 10 flat bars: long enough for the dispatcher guard. -/
def dataC7 : List Bar := List.replicate 10 (flatBar 100)

/-- 20 bars ending in a green mother bar followed by two consecutive red
bars, each strictly inside its predecessor: the natural double-inside-bar
setup. -/
def dataC8 : List Bar :=
  List.replicate 17 ⟨100, 101, 99, 100, 100⟩ ++ [⟨100, 120, 95, 118, 100⟩] ++
  [⟨116, 118, 99, 100, 100⟩] ++ [⟨110, 112, 101, 103, 100⟩]

/-- 20 bars ending in a green mother bar (offset -2) and one red inside bar
(offset -1): a scoring inside-bar detection. -/
def dataC9 : List Bar :=
  List.replicate 18 ⟨100, 101, 99, 100, 100⟩ ++ [⟨100, 112, 98, 110, 100⟩] ++
  [⟨106, 108, 102, 104, 100⟩]

/-- 30 flat bars: enough for the cup-handle guard, `handle_days` = 9. -/
def dataC10 : List Bar := List.replicate 30 (flatBar 100)

/-! ### Helper lemmas: non-negativity of the running confidence -/

theorem iteBranch_nonneg {c : Prop} [Decidable c] {a b : ℚ} (ha : 0 ≤ a) (hb : 0 ≤ b) :
    0 ≤ if c then a else b := by
  split <;> assumption

theorem iteBonus_nonneg {c : Prop} [Decidable c] {x k : ℚ} (hx : 0 ≤ x) (hk : 0 ≤ k) :
    0 ≤ if c then x + k else x := by
  split <;> linarith

theorem fstIte_nonneg {c : Prop} [Decidable c] {a b : ℚ × PatternInfo}
    (ha : 0 ≤ a.1) (hb : 0 ≤ b.1) : 0 ≤ (if c then a else b).1 := by
  split <;> assumption

theorem volume_tier_score_nonneg (cfg : Config) (data : List Bar) (h : cfg.Nonneg) :
    0 ≤ volume_tier_score cfg data := by
  obtain ⟨h1, h2, h3, -⟩ := h
  simp only [volume_tier_score]
  split_ifs <;> linarith

theorem volume_pattern_score_nonneg (cfg : Config) (data : List Bar) (pt : String) (fg : Bool)
    (h : cfg.Nonneg) : 0 ≤ volume_pattern_score cfg data pt fg := by
  obtain ⟨-, -, -, h4, h5, h6, h7, -⟩ := h
  have hfl : (0 : ℚ) ≤ ((⌊cfg.bonus_bull_flag / 2⌋ : ℤ) : ℚ) := by
    have : (0 : ℤ) ≤ ⌊cfg.bonus_bull_flag / 2⌋ := Int.le_floor.mpr (by push_cast; linarith)
    exact_mod_cast this
  simp only [volume_pattern_score]
  split_ifs <;> linarith

theorem volume_trend_score_nonneg (data : List Bar) : 0 ≤ volume_trend_score data := by
  simp only [volume_trend_score]
  split_ifs <;> norm_num

theorem analyze_volume_score_nonneg (cfg : Config) (data : List Bar) (pt : String) (fg : Bool)
    (h : cfg.Nonneg) : 0 ≤ analyze_volume_score cfg data pt fg := by
  simp only [analyze_volume_score]
  split
  · norm_num
  · have := volume_tier_score_nonneg cfg data h
    have := volume_pattern_score_nonneg cfg data pt fg h
    have := volume_trend_score_nonneg data
    linarith

theorem ibPreVolumeConf_nonneg (cfg : Config) (data : List Bar)
    (macd_line signal_line histogram : List ℚ) (tf : String) (mother inside : Bar) (cnt : Nat) :
    0 ≤ ibPreVolumeConf cfg data macd_line signal_line histogram tf mother inside cnt := by
  simp only [ibPreVolumeConf]
  split_ifs <;> norm_num

theorem ftConfBeforeStale_nonneg (cfg : Config) (data : List Bar) :
    0 ≤ ftConfBeforeStale cfg data := by
  simp only [ftConfBeforeStale]
  split_ifs <;> norm_num

theorem bfConfAfterPullback_nonneg (cfg : Config) (data : List Bar) :
    0 ≤ bfConfAfterPullback cfg data := by
  simp only [bfConfAfterPullback]
  split_ifs <;> norm_num

theorem cupConfBeforeVolume_nonneg (cfg : Config) (data : List Bar)
    (macd_line signal_line : List ℚ) :
    0 ≤ cupConfBeforeVolume cfg data macd_line signal_line := by
  simp only [cupConfBeforeVolume]
  split_ifs <;> norm_num

theorem ibAgingPenalty_nonneg (tf : String) : 0 ≤ ibAgingPenalty tf := by
  unfold ibAgingPenalty; split <;> norm_num

theorem detect_inside_bar_nonneg (cfg : Config) (data : List Bar)
    (macd_line signal_line histogram : List ℚ) (ctx : Unit) (tf : String) (h : cfg.Nonneg) :
    0 ≤ (detect_inside_bar cfg data macd_line signal_line histogram ctx tf).1 := by
  have hmax : 0 ≤ cfg.max_confidence_without_volume := h.2.2.2.2.2.2.2
  simp only [detect_inside_bar, analyze_volume_pattern]
  refine fstIte_nonneg (by norm_num) ?_
  refine fstIte_nonneg (by norm_num) ?_
  refine fstIte_nonneg (by norm_num) ?_
  dsimp only
  refine iteBranch_nonneg (mul_nonneg ?_ (ibAgingPenalty_nonneg tf)) ?_ <;>
    refine iteBranch_nonneg (le_min ?_ hmax) ?_ <;>
    exact add_nonneg (ibPreVolumeConf_nonneg _ _ _ _ _ _ _ _ _)
      (analyze_volume_score_nonneg _ _ _ _ h)

theorem detect_flat_top_nonneg (cfg : Config) (data : List Bar)
    (macd_line signal_line histogram : List ℚ) (ctx : Unit) (h : cfg.Nonneg) :
    0 ≤ (detect_flat_top cfg data macd_line signal_line histogram ctx).1 := by
  have hmax : 0 ≤ cfg.max_confidence_without_volume := h.2.2.2.2.2.2.2
  simp only [detect_flat_top, analyze_volume_pattern]
  refine fstIte_nonneg (by norm_num) ?_
  refine fstIte_nonneg (by norm_num) ?_
  refine fstIte_nonneg (by norm_num) ?_
  refine fstIte_nonneg (mul_nonneg (ftConfBeforeStale_nonneg cfg data) (by norm_num)) ?_
  refine fstIte_nonneg (by norm_num) ?_
  dsimp only
  refine iteBranch_nonneg (le_min ?_ hmax) ?_ <;>
    exact add_nonneg (iteBonus_nonneg (ftConfBeforeStale_nonneg cfg data) (by norm_num))
      (analyze_volume_score_nonneg _ _ _ _ h)

theorem detect_bull_flag_nonneg (cfg : Config) (data : List Bar)
    (macd_line signal_line histogram : List ℚ) (ctx : Unit) (h : cfg.Nonneg) :
    0 ≤ (detect_bull_flag cfg data macd_line signal_line histogram ctx).1 := by
  have hmax : 0 ≤ cfg.max_confidence_without_volume := h.2.2.2.2.2.2.2
  simp only [detect_bull_flag, analyze_volume_pattern]
  refine fstIte_nonneg (by norm_num) ?_
  refine fstIte_nonneg (by norm_num) ?_
  refine fstIte_nonneg (by norm_num) ?_
  refine fstIte_nonneg (by norm_num) ?_
  refine fstIte_nonneg (mul_nonneg (bfConfAfterPullback_nonneg cfg data) (by norm_num)) ?_
  dsimp only
  refine iteBranch_nonneg (le_min ?_ hmax) ?_ <;>
    refine iteBonus_nonneg ?_ (by norm_num) <;>
    exact add_nonneg
      (iteBonus_nonneg (iteBonus_nonneg (bfConfAfterPullback_nonneg cfg data) (by norm_num)) (by norm_num))
      (analyze_volume_score_nonneg _ _ _ _ h)

theorem cupHandleScored_conf_nonneg (cfg : Config) (data : List Bar)
    (macd_line signal_line histogram : List ℚ) (ctx : Unit) (c : ℚ) (m v : PatternInfo)
    (hs : cupHandleScored cfg data macd_line signal_line histogram ctx = some (c, m, v))
    (h : cfg.Nonneg) : 0 ≤ c := by
  simp only [cupHandleScored, analyze_volume_pattern] at hs
  split_ifs at hs
  simp only [Option.some.injEq, Prod.mk.injEq] at hs
  obtain ⟨hc, -, -⟩ := hs
  subst hc
  exact add_nonneg (cupConfBeforeVolume_nonneg _ _ _ _) (analyze_volume_score_nonneg _ _ _ _ h)

theorem detect_cup_handle_nonneg (cfg : Config) (data : List Bar)
    (macd_line signal_line histogram : List ℚ) (ctx : Unit) (h : cfg.Nonneg) :
    0 ≤ (detect_cup_handle cfg data macd_line signal_line histogram ctx).1 := by
  have hmax : 0 ≤ cfg.max_confidence_without_volume := h.2.2.2.2.2.2.2
  unfold detect_cup_handle
  cases hs : cupHandleScored cfg data macd_line signal_line histogram ctx with
  | none => norm_num
  | some t =>
    obtain ⟨c, m, v⟩ := t
    have hc : 0 ≤ c :=
      cupHandleScored_conf_nonneg cfg data macd_line signal_line histogram ctx c m v hs h
    dsimp only
    refine fstIte_nonneg hc ?_
    dsimp only
    exact iteBranch_nonneg (le_min hc hmax) hc

@[simp] theorem fst_itePair (c : Prop) [Decidable c] (a b : ℚ × PatternInfo) :
    (if c then a else b).1 = if c then a.1 else b.1 := by
  split <;> rfl

@[simp] theorem snd_itePair (c : Prop) [Decidable c] (a b : ℚ × PatternInfo) :
    (if c then a else b).2 = if c then a.2 else b.2 := by
  split <;> rfl

/-! ### Helper lemmas: keys that the staged fact maps never contain -/

theorem analyze_volume_info_no_capped (cfg : Config) (data : List Bar) (pt : String) (fg : Bool) :
    hasKey (analyze_volume_info cfg data pt fg) "confidence_capped" = false := by
  simp [analyze_volume_info]

theorem analyze_volume_info_no_double (cfg : Config) (data : List Bar) (pt : String) (fg : Bool) :
    hasKey (analyze_volume_info cfg data pt fg) "double_inside_bar" = false := by
  simp [analyze_volume_info]

theorem analyze_volume_info_no_aging (cfg : Config) (data : List Bar) (pt : String) (fg : Bool) :
    hasKey (analyze_volume_info cfg data pt fg) "pattern_aging" = false := by
  simp [analyze_volume_info]

theorem analyze_volume_info_no_forming (cfg : Config) (data : List Bar) (pt : String) (fg : Bool) :
    hasKey (analyze_volume_info cfg data pt fg) "forming_handle" = false := by
  simp [analyze_volume_info]

theorem ibPreVolumeInfo_no_aging (cfg : Config) (data : List Bar)
    (macd_line signal_line histogram : List ℚ) (tf : String) (mother inside : Bar) (cnt : Nat) :
    hasKey (ibPreVolumeInfo cfg data macd_line signal_line histogram tf mother inside cnt)
      "pattern_aging" = false := by
  simp [ibPreVolumeInfo, ibTfInfo]

theorem ibPreVolumeInfo_no_double (cfg : Config) (data : List Bar)
    (macd_line signal_line histogram : List ℚ) (tf : String) (mother inside : Bar) :
    hasKey (ibPreVolumeInfo cfg data macd_line signal_line histogram tf mother inside 1)
      "double_inside_bar" = false := by
  simp [ibPreVolumeInfo, ibTfInfo]

theorem cupInfoBeforeVolume_no_capped (cfg : Config) (data : List Bar)
    (macd_line signal_line : List ℚ) :
    hasKey (cupInfoBeforeVolume cfg data macd_line signal_line) "confidence_capped" = false := by
  simp [cupInfoBeforeVolume]

theorem cupInfoBeforeVolume_no_forming (cfg : Config) (data : List Bar)
    (macd_line signal_line : List ℚ) (h : 0 < cupHandleDays data.length) :
    hasKey (cupInfoBeforeVolume cfg data macd_line signal_line) "forming_handle" = false := by
  simp [cupInfoBeforeVolume, h]

theorem ftInfoBeforeStale_no_broken (cfg : Config) (data : List Bar) :
    hasKey (ftInfoBeforeStale cfg data) "pattern_broken" = false := by
  simp [ftInfoBeforeStale, ftBaseInfo]

/-! ### Helper lemmas: the inside-bar scan finds at most one inside bar -/

/-- Once one inside bar has been accepted (state `(some m, 1, [m+1])` with
the mother bar at offset `m` known to be green), the scan stops at the next
offset: accepting a second bar would need the same bar `m` to be red. -/
theorem ibScan_stop (data : List Bar) (offs : List Int) (m : Int) (prev : Bar)
    (h2 : iloc data m = some prev) (hg : prev.Close > prev.Open) :
    ibScan data offs (some m, 1, [m + 1]) = (some m, 1, [m + 1]) := by
  cases offs with
  | nil => rfl
  | cons i rest =>
    simp only [ibScan]
    cases h1 : iloc data i with
    | none => rfl
    | some cur =>
      cases h3 : iloc data (i - 1) with
      | none => rfl
      | some p2 =>
        dsimp only
        by_cases hq : ibQual p2 cur
        · rw [if_pos hq, if_neg (by decide : ¬((1 : Nat) = 0))]
          rw [if_neg ?_]
          intro hand
          have hi : i = m := by
            have := hand.2
            simp only [List.headD] at this
            omega
          subst hi
          rw [h2] at h1
          injection h1 with he
          subst he
          have hred := hq.2.2
          linarith
        · rw [if_neg hq]

/-- From the initial state the scan either finds nothing at the first offset
(and stops) or accepts exactly the first offset as the single inside bar. -/
theorem ibScan_cases (data : List Bar) (i : Int) (rest : List Int) :
    ibScan data (i :: rest) (none, 0, []) = (none, 0, []) ∨
    ibScan data (i :: rest) (none, 0, []) = (some (i - 1), 1, [i]) := by
  simp only [ibScan]
  cases h1 : iloc data i with
  | none => exact Or.inl rfl
  | some cur =>
    cases h3 : iloc data (i - 1) with
    | none => exact Or.inl rfl
    | some prev =>
      dsimp only
      by_cases hq : ibQual prev cur
      · rw [if_pos hq, if_pos trivial]
        right
        have h := ibScan_stop data rest (i - 1) prev h3 hq.2.1
        rw [show i - 1 + 1 = i from by ring] at h
        exact h
      · rw [if_neg hq]
        exact Or.inl rfl

/-- The scan over either timeframe's offsets: nothing found, or a single
inside bar at offset -1 with the mother bar at offset -2. -/
theorem ibScan_offsets_cases (data : List Bar) (tf : String) :
    ibScan data (ibOffsets tf) (none, 0, []) = (none, 0, []) ∨
    ibScan data (ibOffsets tf) (none, 0, []) = (some (-2), 1, [-1]) := by
  by_cases htf : tf = "1wk"
  · have h := ibScan_cases data (-1) [-2, -3, -4, -5, -6]
    rw [show ((-1 : Int) - 1) = -2 from by ring] at h
    simpa [ibOffsets, htf] using h
  · have h := ibScan_cases data (-1) [-2, -3, -4]
    rw [show ((-1 : Int) - 1) = -2 from by ring] at h
    simpa [ibOffsets, htf] using h

/-! ### Claims -/

/-- Claim C2: every detector returns `(0, {})` on a series shorter than its
pattern-specific minimum (5 bars Inside Bar, 30 Bull Flag, 30 Cup Handle,
50 Flat Top), and the dispatcher returns `(false, 0, {})` below 10 bars. -/
theorem claim_C2 (cfg : Config) (data : List Bar) (macd_line signal_line histogram : List ℚ)
    (ctx : Unit) (tf : String) (pattern_type : String) :
    (data.length < 5 → detect_inside_bar cfg data macd_line signal_line histogram ctx tf = (0, [])) ∧
    (data.length < 30 → detect_bull_flag cfg data macd_line signal_line histogram ctx = (0, [])) ∧
    (data.length < 30 → detect_cup_handle cfg data macd_line signal_line histogram ctx = (0, [])) ∧
    (data.length < 50 → detect_flat_top cfg data macd_line signal_line histogram ctx = (0, [])) ∧
    (data.length < 10 → detect_pattern cfg data pattern_type ctx tf = (false, 0, [])) := by
  refine ⟨fun h => ?_, fun h => ?_, fun h => ?_, fun h => ?_, fun h => ?_⟩
  · simp [detect_inside_bar, h]
  · simp [detect_bull_flag, h]
  · simp [detect_cup_handle, cupHandleScored, h]
  · simp [detect_flat_top, h]
  · simp [detect_pattern, h]

/-- Witness for C2 at the empty series. -/
theorem claim_C2_witness :
    detect_inside_bar cfgW [] [] [] [] () "daily" = (0, []) ∧
    detect_bull_flag cfgW [] [] [] [] () = (0, []) ∧
    detect_cup_handle cfgW [] [] [] [] () = (0, []) ∧
    detect_flat_top cfgW [] [] [] [] () = (0, []) ∧
    detect_pattern cfgW [] "Bull Flag" () "daily" = (false, 0, []) :=
  ⟨(claim_C2 cfgW [] [] [] [] () "daily" "Bull Flag").1 (by decide),
   (claim_C2 cfgW [] [] [] [] () "daily" "Bull Flag").2.1 (by decide),
   (claim_C2 cfgW [] [] [] [] () "daily" "Bull Flag").2.2.1 (by decide),
   (claim_C2 cfgW [] [] [] [] () "daily" "Bull Flag").2.2.2.1 (by decide),
   (claim_C2 cfgW [] [] [] [] () "daily" "Bull Flag").2.2.2.2 (by decide)⟩

/-- Claim C6: with enough bars, a passing initial gain and a pullback below
the configured minimum, `detect_flat_top` soft-rejects: confidence exactly
25 and the fact map's only key is the initial-ascension fact. -/
theorem claim_C6 (cfg : Config) (data : List Bar) (macd_line signal_line histogram : List ℚ)
    (ctx : Unit) (h50 : 50 ≤ data.length)
    (hgain : cfg.min_initial_gain ≤ ftInitialGain data)
    (hpull : ftPullback data < cfg.min_pullback) :
    detect_flat_top cfg data macd_line signal_line histogram ctx = (25, ftBaseInfo data) ∧
    ((detect_flat_top cfg data macd_line signal_line histogram ctx).2).map Prod.fst =
      ["initial_ascension"] := by
  have heq : detect_flat_top cfg data macd_line signal_line histogram ctx = (25, ftBaseInfo data) := by
    simp only [detect_flat_top]
    rw [if_neg (by omega), if_neg (not_lt.mpr hgain), if_pos hpull]
  exact ⟨heq, by rw [heq]; simp [ftBaseInfo]⟩

/-- Witness for C6. -/
theorem claim_C6_witness :
    (50 ≤ dataC6.length ∧ cfgW.min_initial_gain ≤ ftInitialGain dataC6 ∧
      ftPullback dataC6 < cfgW.min_pullback) ∧
    detect_flat_top cfgW dataC6 [0] [0] [0] () = (25, ftBaseInfo dataC6) ∧
    ((detect_flat_top cfgW dataC6 [0] [0] [0] ()).2).map Prod.fst = ["initial_ascension"] :=
  ⟨by with_unfolding_all decide,
   (claim_C6 cfgW dataC6 [0] [0] [0] () (by with_unfolding_all decide) (by with_unfolding_all decide) (by with_unfolding_all decide)).1,
   (claim_C6 cfgW dataC6 [0] [0] [0] () (by with_unfolding_all decide) (by with_unfolding_all decide) (by with_unfolding_all decide)).2⟩

/-- Claim C3: in `detect_flat_top`, once the staleness condition holds (with
the geometric guards passed), the detector returns `confidence * 0.5` with
the `pattern_stale` flag and `days_old` recorded, and the hard break check
is never reached — its `pattern_broken` reset cannot occur, even when the
current close is below `descent_low * 0.95`. -/
theorem claim_C3 (cfg : Config) (data : List Bar) (macd_line signal_line histogram : List ℚ)
    (ctx : Unit) (h50 : 50 ≤ data.length)
    (hgain : cfg.min_initial_gain ≤ ftInitialGain data)
    (hpull : cfg.min_pullback ≤ ftPullback data)
    (hstale : cfg.age_limit_flat_top < (ftDaysOld cfg data : ℚ)) :
    detect_flat_top cfg data macd_line signal_line histogram ctx =
      (ftConfBeforeStale cfg data * (1/2),
       ftInfoBeforeStale cfg data ++
         [("pattern_stale", Val.b true), ("days_old", Val.i (ftDaysOld cfg data))]) ∧
    hasKey (detect_flat_top cfg data macd_line signal_line histogram ctx).2 "pattern_broken" = false := by
  have heq : detect_flat_top cfg data macd_line signal_line histogram ctx =
      (ftConfBeforeStale cfg data * (1/2),
       ftInfoBeforeStale cfg data ++
         [("pattern_stale", Val.b true), ("days_old", Val.i (ftDaysOld cfg data))]) := by
    simp only [detect_flat_top]
    rw [if_neg (by omega), if_neg (not_lt.mpr hgain), if_neg (not_lt.mpr hpull), if_pos hstale]
  refine ⟨heq, ?_⟩
  rw [heq]
  simp [ftInfoBeforeStale_no_broken cfg data]

/-- Witness for C3: a stale series whose close is also below
`descent_low * 0.95`. -/
theorem claim_C3_witness :
    (50 ≤ dataC3.length ∧ cfgW.min_initial_gain ≤ ftInitialGain dataC3 ∧
      cfgW.min_pullback ≤ ftPullback dataC3 ∧
      cfgW.age_limit_flat_top < (ftDaysOld cfgW dataC3 : ℚ) ∧
      currentClose dataC3 < ftDescentLow dataC3 * (95/100)) ∧
    detect_flat_top cfgW dataC3 [0] [0] [0] () =
      (ftConfBeforeStale cfgW dataC3 * (1/2),
       ftInfoBeforeStale cfgW dataC3 ++
         [("pattern_stale", Val.b true), ("days_old", Val.i (ftDaysOld cfgW dataC3))]) ∧
    hasKey (detect_flat_top cfgW dataC3 [0] [0] [0] ()).2 "pattern_broken" = false :=
  ⟨by with_unfolding_all decide,
   (claim_C3 cfgW dataC3 [0] [0] [0] () (by with_unfolding_all decide) (by with_unfolding_all decide) (by with_unfolding_all decide) (by with_unfolding_all decide)).1,
   (claim_C3 cfgW dataC3 [0] [0] [0] () (by with_unfolding_all decide) (by with_unfolding_all decide) (by with_unfolding_all decide) (by with_unfolding_all decide)).2⟩

/-- Counterexample to C4 as stated: a series whose close is below the
flagpole start *and* below `flag_low * flag_tolerance` gets the reason
"Below flag support" — not "Below flagpole start" — because the source
checks flag support first (lines 410-415). -/
theorem claim_C4_counterexample :
    30 ≤ dataC4.length ∧ cfgW.min_flagpole_gain ≤ bfFlagpoleGain dataC4 ∧
    currentClose dataC4 < bfStartPrice dataC4 ∧
    currentClose dataC4 < bfFlagLow dataC4 * cfgW.flag_tolerance ∧
    detect_bull_flag cfgW dataC4 [0] [0] [0] () =
      (0, [("pattern_broken", Val.b true), ("break_reason", Val.s "Below flag support")]) := by
  with_unfolding_all decide

/-- Claim C4 (amended): with enough bars and a passing flagpole gain, a
current close strictly below the flagpole start yields confidence exactly 0
with `pattern_broken`; the recorded reason is "Below flagpole start" unless
the close is also below `flag_low * flag_tolerance`, in which case the
earlier flag-support check fires and the reason is "Below flag support". -/
theorem claim_C4 (cfg : Config) (data : List Bar) (macd_line signal_line histogram : List ℚ)
    (ctx : Unit) (h30 : 30 ≤ data.length)
    (hgain : cfg.min_flagpole_gain ≤ bfFlagpoleGain data)
    (hbelow : currentClose data < bfStartPrice data) :
    detect_bull_flag cfg data macd_line signal_line histogram ctx =
      (0, [("pattern_broken", Val.b true),
           ("break_reason", Val.s (if currentClose data < bfFlagLow data * cfg.flag_tolerance
              then "Below flag support" else "Below flagpole start"))]) := by
  simp only [detect_bull_flag]
  rw [if_neg (by omega), if_neg (not_lt.mpr hgain)]
  by_cases hsup : currentClose data < bfFlagLow data * cfg.flag_tolerance
  · simp [hsup]
  · simp [hsup, hbelow]

/-- Witness for the amended C4: close below the flagpole start but not
below flag support yields "Below flagpole start". -/
theorem claim_C4_witness :
    (30 ≤ dataC4b.length ∧ cfgW.min_flagpole_gain ≤ bfFlagpoleGain dataC4b ∧
      currentClose dataC4b < bfStartPrice dataC4b ∧
      ¬(currentClose dataC4b < bfFlagLow dataC4b * cfgW.flag_tolerance)) ∧
    detect_bull_flag cfgW dataC4b [0] [0] [0] () =
      (0, [("pattern_broken", Val.b true), ("break_reason", Val.s "Below flagpole start")]) := by
  refine ⟨by with_unfolding_all decide, ?_⟩
  have h := claim_C4 cfgW dataC4b [0] [0] [0] () (by with_unfolding_all decide)
    (by with_unfolding_all decide) (by with_unfolding_all decide)
  rw [h]
  with_unfolding_all decide

/-- Claim C5: whenever the running confidence of `detect_cup_handle` after
the Volume Analyzer score is strictly below 35, the detector returns that
confidence and fact map as-is, skipping the volume-confirmation cap: the
`confidence_capped` fact is absent from the output. -/
theorem claim_C5 (cfg : Config) (data : List Bar) (macd_line signal_line histogram : List ℚ)
    (ctx : Unit) (c : ℚ)
    (hs : cupScoredConf cfg data macd_line signal_line histogram ctx = some c) (hc : c < 35) :
    detect_cup_handle cfg data macd_line signal_line histogram ctx =
      (c, (cupHandleScored cfg data macd_line signal_line histogram ctx).elim []
            (fun t => t.2.1)) ∧
    hasKey (detect_cup_handle cfg data macd_line signal_line histogram ctx).2
      "confidence_capped" = false := by
  cases hsc : cupHandleScored cfg data macd_line signal_line histogram ctx with
  | none => simp [cupScoredConf, hsc] at hs
  | some t =>
    obtain ⟨c2, m, v⟩ := t
    have hc2 : c2 = c := by simpa [cupScoredConf, hsc] using hs
    subst hc2
    have hm : hasKey m "confidence_capped" = false := by
      simp only [cupHandleScored, analyze_volume_pattern] at hsc
      split_ifs at hsc
      simp only [Option.some.injEq, Prod.mk.injEq] at hsc
      obtain ⟨-, hminfo, -⟩ := hsc
      rw [← hminfo]
      simp [cupInfoBeforeVolume_no_capped, analyze_volume_info_no_capped]
    have heq : detect_cup_handle cfg data macd_line signal_line histogram ctx = (c2, m) := by
      unfold detect_cup_handle
      rw [hsc]
      dsimp only
      rw [if_pos hc]
    refine ⟨?_, ?_⟩
    · rw [heq]; rfl
    · rw [heq]
      exact hm

/-- Witness for C5: a cup-handle series whose running confidence is 31.5
with weak volume — returned as-is, no `confidence_capped` fact. -/
theorem claim_C5_witness :
    cupScoredConf cfgW dataC5 [0] [0] [0] () = some (63/2) ∧ ((63 : ℚ)/2) < 35 ∧
    detect_cup_handle cfgW dataC5 [0] [0] [0] () =
      ((63 : ℚ)/2, (cupHandleScored cfgW dataC5 [0] [0] [0] ()).elim [] (fun t => t.2.1)) ∧
    hasKey (detect_cup_handle cfgW dataC5 [0] [0] [0] ()).2 "confidence_capped" = false :=
  ⟨by with_unfolding_all decide, by norm_num,
   (claim_C5 cfgW dataC5 [0] [0] [0] () (63/2) (by with_unfolding_all decide) (by norm_num)).1,
   (claim_C5 cfgW dataC5 [0] [0] [0] () (63/2) (by with_unfolding_all decide) (by norm_num)).2⟩

/-- Counterexample to C7 as stated: when the dispatcher's series-length
guard fires it returns the literal empty fact map, without the indicator
series attached. -/
theorem claim_C7_counterexample :
    ([] : List Bar).length < 10 ∧
    detect_pattern cfgW [] "Inside Bar" () "daily" = (false, 0, []) ∧
    hasKey (detect_pattern cfgW [] "Inside Bar" () "daily").2.2 "macd_line" = false := by
  with_unfolding_all decide

/-- Claim C7 (amended): for every series that passes the 10-bar guard, the
dispatcher's fact map contains the indicator series (`macd_line`,
`signal_line`, `histogram`), whatever the pattern name and outcome. -/
theorem claim_C7 (cfg : Config) (data : List Bar) (pattern_type : String) (ctx : Unit)
    (tf : String) (h : 10 ≤ data.length) :
    hasKey (detect_pattern cfg data pattern_type ctx tf).2.2 "macd_line" = true ∧
    hasKey (detect_pattern cfg data pattern_type ctx tf).2.2 "signal_line" = true ∧
    hasKey (detect_pattern cfg data pattern_type ctx tf).2.2 "histogram" = true := by
  simp only [detect_pattern, if_neg (by omega : ¬(data.length < 10))]
  refine ⟨?_, ?_, ?_⟩ <;> simp

/-- Witness for the amended C7: a 10-bar series with a pattern name that
matches no detector still gets the indicator series attached. -/
theorem claim_C7_witness :
    10 ≤ dataC7.length ∧
    (hasKey (detect_pattern cfgW dataC7 "Unknown" () "daily").2.2 "macd_line" = true ∧
     hasKey (detect_pattern cfgW dataC7 "Unknown" () "daily").2.2 "signal_line" = true ∧
     hasKey (detect_pattern cfgW dataC7 "Unknown" () "daily").2.2 "histogram" = true) :=
  ⟨by decide, claim_C7 cfgW dataC7 "Unknown" () "daily" (by decide)⟩

/-- Claim C1: the dispatcher's confidence always lies in [0, 100] — in
particular it is never negative, because every detector's running
confidence starts at 0 and only grows by non-negative bonuses, is scaled by
positive factors at most 1, is capped by `min`, or is reset to 0. -/
theorem claim_C1 (cfg : Config) (data : List Bar) (pattern_type : String) (ctx : Unit)
    (tf : String) (h : cfg.Nonneg) :
    0 ≤ (detect_pattern cfg data pattern_type ctx tf).2.1 ∧
    (detect_pattern cfg data pattern_type ctx tf).2.1 ≤ 100 := by
  by_cases hlen : data.length < 10
  · simp [detect_pattern, hlen]
  · simp only [detect_pattern, if_neg hlen]
    constructor
    · split_ifs
      · exact le_min (detect_flat_top_nonneg _ _ _ _ _ _ h) (by norm_num)
      · exact le_min (mul_nonneg (detect_bull_flag_nonneg _ _ _ _ _ _ h) (by norm_num)) (by norm_num)
      · exact le_min (mul_nonneg (detect_cup_handle_nonneg _ _ _ _ _ _ h) (by norm_num)) (by norm_num)
      · exact le_min (detect_inside_bar_nonneg _ _ _ _ _ _ _ h) (by norm_num)
      · norm_num
    · split_ifs
      · exact min_le_right _ _
      · exact min_le_right _ _
      · exact min_le_right _ _
      · exact min_le_right _ _
      · norm_num

/-- Witness for C1 at the concrete configuration. -/
theorem claim_C1_witness :
    cfgW.Nonneg ∧
    (0 ≤ (detect_pattern cfgW dataC7 "Bull Flag" () "daily").2.1 ∧
     (detect_pattern cfgW dataC7 "Bull Flag" () "daily").2.1 ≤ 100) :=
  ⟨by with_unfolding_all decide, claim_C1 cfgW dataC7 "Bull Flag" () "daily" (by with_unfolding_all decide)⟩

/-- Claim C8 (the code defeats its own double-inside-bar branch): no input
whatsoever can make `detect_inside_bar` record the `double_inside_bar`
fact, because accepting a second inside bar would require the bar at offset
-2 to be green (as the first bar's mother) and red (as the second inside
bar) at once; on the natural double-inside-bar series the scan stops
immediately with zero bars. -/
theorem claim_C8 :
    (∀ (cfg : Config) (data : List Bar) (macd_line signal_line histogram : List ℚ)
       (ctx : Unit) (tf : String),
       hasKey (detect_inside_bar cfg data macd_line signal_line histogram ctx tf).2
         "double_inside_bar" = false) ∧
    detect_inside_bar cfgW dataC8 [0] [0] [0] () "daily" = (0, [("timeframe", Val.s "Daily")]) := by
  constructor
  · intro cfg data macd_line signal_line histogram ctx tf
    rcases ibScan_offsets_cases data tf with h | h
    · simp [detect_inside_bar, h, ibTfInfo]
    · simp [detect_inside_bar, analyze_volume_pattern, h, ibTfInfo,
        ibPreVolumeInfo_no_double, analyze_volume_info_no_double]
  · with_unfolding_all decide

/-- Claim C9: a non-zero confidence from `detect_inside_bar` always comes
from a single inside bar at offset -1 with the mother bar at offset -2 (the
backward scan breaks at the first non-qualifying offset), so the aging
penalty branch is never taken in any call: `pattern_aging` is never in the
output. -/
theorem claim_C9 (cfg : Config) (data : List Bar) (macd_line signal_line histogram : List ℚ)
    (ctx : Unit) (tf : String) :
    hasKey (detect_inside_bar cfg data macd_line signal_line histogram ctx tf).2
      "pattern_aging" = false ∧
    ((detect_inside_bar cfg data macd_line signal_line histogram ctx tf).1 ≠ 0 →
      ibScan data (ibOffsets tf) (none, 0, []) = (some (-2), 1, [-1])) := by
  rcases ibScan_offsets_cases data tf with h | h
  · have hz : (detect_inside_bar cfg data macd_line signal_line histogram ctx tf).1 = 0 := by
      simp [detect_inside_bar, h]
    refine ⟨?_, fun hne => absurd hz hne⟩
    simp [detect_inside_bar, h, ibTfInfo]
  · have haging : ¬((-2 : Int) ≤ ibAgingThreshold tf) := by
      unfold ibAgingThreshold; split <;> norm_num
    refine ⟨?_, fun _ => h⟩
    simp [detect_inside_bar, analyze_volume_pattern, h, ibTfInfo, haging,
      ibPreVolumeInfo_no_aging, analyze_volume_info_no_aging]

/-- Witness for C9: a scoring inside-bar detection with non-zero
confidence, single inside bar at -1, mother at -2, no aging flag. -/
theorem claim_C9_witness :
    hasKey (detect_inside_bar cfgW dataC9 [0] [0] [0] () "daily").2 "pattern_aging" = false ∧
    (detect_inside_bar cfgW dataC9 [0] [0] [0] () "daily").1 ≠ 0 ∧
    ibScan dataC9 (ibOffsets "daily") (none, 0, []) = (some (-2), 1, [-1]) :=
  ⟨(claim_C9 cfgW dataC9 [0] [0] [0] () "daily").1, by with_unfolding_all decide,
   (claim_C9 cfgW dataC9 [0] [0] [0] () "daily").2 (by with_unfolding_all decide)⟩

/-- Claim C10: for a series of at least 30 bars `handle_days` is between 9
and 30, so the `handle_days == 0` branch is dead: `forming_handle` never
appears in any `detect_cup_handle` output. -/
theorem claim_C10 (cfg : Config) (data : List Bar) (macd_line signal_line histogram : List ℚ)
    (ctx : Unit) :
    hasKey (detect_cup_handle cfg data macd_line signal_line histogram ctx).2
      "forming_handle" = false ∧
    (30 ≤ data.length → 9 ≤ cupHandleDays data.length ∧ cupHandleDays data.length ≤ 30) := by
  constructor
  · cases hsc : cupHandleScored cfg data macd_line signal_line histogram ctx with
    | none => simp [detect_cup_handle, hsc]
    | some t =>
      obtain ⟨c, m, v⟩ := t
      have hlen : ¬(data.length < 30) := by
        intro hl
        simp [cupHandleScored, hl] at hsc
      have hm : hasKey m "forming_handle" = false := by
        simp only [cupHandleScored, analyze_volume_pattern] at hsc
        split_ifs at hsc
        simp only [Option.some.injEq, Prod.mk.injEq] at hsc
        obtain ⟨-, hminfo, -⟩ := hsc
        rw [← hminfo]
        have hd : 0 < cupHandleDays data.length := by
          simp only [cupHandleDays, cupMaxLookback]
          omega
        simp [cupInfoBeforeVolume_no_forming cfg data macd_line signal_line hd,
          analyze_volume_info_no_forming]
      simp [detect_cup_handle, hsc, hm]
  · intro h30
    simp only [cupHandleDays, cupMaxLookback]
    omega

/-- Witness for C10 at a 30-bar series: `handle_days` is exactly 9. -/
theorem claim_C10_witness :
    hasKey (detect_cup_handle cfgW dataC10 [0] [0] [0] ()).2 "forming_handle" = false ∧
    30 ≤ dataC10.length ∧
    (9 ≤ cupHandleDays dataC10.length ∧ cupHandleDays dataC10.length ≤ 30) :=
  ⟨(claim_C10 cfgW dataC10 [0] [0] [0] ()).1, by decide,
   (claim_C10 cfgW dataC10 [0] [0] [0] ()).2 (by decide)⟩
